import Mathlib

/- Shallow embedding of the OAuth suspend/resume protocol implemented by the
   chatbot UI sources of this repository:
     - src/chatbot_ui/app.py                        (namespace App)
     - src/chatbot_ui/few_tries/app_with_runner.py  (namespace Runner)
     - src/chatbot_ui/few_tries/app_deployed.py     (namespace Deployed)
   JSON-compatible Python values (the event dicts, the persisted auth records
   and the wire payloads) are modelled by the inductive type JVal; Python
   dictionary membership tests and subscripting are modelled by association-list
   lookup; Python exceptions are modelled by Except over the PyExn type. -/

/-- JSON-compatible value, the shape of every event, config and payload the
UI code manipulates.  Attribute-style access on ADK event objects is modelled
the same way as dictionary access (the two access styles in the source read
the same underlying fields). -/
inductive JVal where
  | str : String → JVal
  | num : Int → JVal
  | bool : Bool → JVal
  | null : JVal
  | obj : List (String × JVal) → JVal
  | arr : List JVal → JVal

/-- Association-list lookup with propositional key comparison; models
`d[k]` / `d.get(k)` / `k in d` on a Python dict (keys are unique in a dict,
so returning the first binding is exact). -/
def lookupKey {α : Type} : List (String × α) → String → Option α
  | [], _ => none
  | (k', v) :: rest, k => if k' = k then some v else lookupKey rest k

/-- Association-list update: models `d[k] = v` on a Python dict (replaces the
existing binding in place, otherwise appends, preserving insertion order). -/
def setEntry {α : Type} : List (String × α) → String → α → List (String × α)
  | [], k, v => [(k, v)]
  | (k', v') :: rest, k, v =>
      if k' = k then (k, v) :: rest else (k', v') :: setEntry rest k v

/-- Association-list removal: models deleting the file `auth_<k>.json`. -/
def eraseKey {α : Type} : List (String × α) → String → List (String × α)
  | [], _ => []
  | (k', v) :: rest, k =>
      if k' = k then eraseKey rest k else (k', v) :: eraseKey rest k

/-- `j.get? k`: `k in j` holds iff this is `some`, and the value is `j[k]`.
On a non-dict value Python membership of a string key fails (or, for `in` on a
string, does a substring test the configs never exercise), so `none`. -/
def JVal.get? : JVal → String → Option JVal
  | .obj kvs, k => lookupKey kvs k
  | _, _ => none

/-- `j[k] = v` on a dict value; the mutation sites in the source are all
guarded by membership tests that ensure the target is a dict. -/
def JVal.set : JVal → String → JVal → JVal
  | .obj kvs, k, v => .obj (setEntry kvs k v)
  | j, _, _ => j

/-- Follow a chain of keys, `none` as soon as one is missing. -/
def getPath : JVal → List String → Option JVal
  | j, [] => some j
  | j, k :: ks =>
      match j.get? k with
      | some v => getPath v ks
      | none => none

/-- Python truthiness of a JSON value (`if x:`). -/
def pyTruthy : JVal → Bool
  | .str s => !(s == "")
  | .num n => !(n == 0)
  | .bool b => b
  | .null => false
  | .obj kvs => !kvs.isEmpty
  | .arr xs => !xs.isEmpty

/-- `a or b` on optional values: Python `or` keeps the left operand when it is
truthy, otherwise evaluates to the right one (`.get` returning `None` is
modelled by `none`). -/
def pyOr (a b : Option JVal) : Option JVal :=
  match a with
  | some v => if pyTruthy v then some v else b
  | none => b

/-- `j.get(k, d)`: dictionary get with a default. -/
def jGetD (j : JVal) (k : String) (d : JVal) : JVal :=
  (j.get? k).getD d

/-- Python str.join over a list, exactly `sep.join(xs)`. -/
def pyJoin (sep : String) : List String → String
  | [] => ""
  | [a] => a
  | a :: b :: rest => a ++ sep ++ pyJoin sep (b :: rest)

/-- Whether `sub` occurs contiguously at the start of `hay`. -/
def seqStarts : List Char → List Char → Bool
  | _, [] => true
  | [], _ :: _ => false
  | c :: cs, d :: ds => (c = d) && seqStarts cs ds

/-- Whether `sub` occurs contiguously anywhere in `hay`. -/
def seqHas : List Char → List Char → Bool
  | [], sub => sub.isEmpty
  | c :: cs, sub => seqStarts (c :: cs) sub || seqHas cs sub

/-- Python `sub in s` on strings (substring test). -/
def strHas (hay sub : String) : Bool :=
  seqHas hay.toList sub.toList

/-- A Python exception, carrying what `str(e)` exposes.  (CPython wraps the
name in a NameError message in quotation marks; the quotes are immaterial to
the textual classification the code performs, so they are omitted.) -/
inductive PyExn where
  | nameError : String → PyExn
  | keyError : String → PyExn
  | attributeError : String → PyExn
  | otherExn : String → PyExn
deriving Repr, DecidableEq

/-- `str(e)` for a modelled exception. -/
def PyExn.message : PyExn → String
  | .nameError n => "name " ++ n ++ " is not defined"
  | .keyError k => "KeyError: " ++ k
  | .attributeError m => m
  | .otherExn m => m

/-- `j[k]` where a missing key raises `KeyError` (Python subscripting). -/
def subscriptKey (j : JVal) (k : String) : Except PyExn JVal :=
  match j.get? k with
  | some v => .ok v
  | none => .error (.keyError k)

/-- Reading a plain name in Python: the bound value, or `NameError` when the
name is unbound in every enclosing scope. -/
def evalName (binding : Option JVal) (n : String) : Except PyExn JVal :=
  match binding with
  | some v => .ok v
  | none => .error (.nameError n)

namespace App

/-- The record `app.py` persists under the key `state`
(`storage_data`, app.py lines 317 to 325).  `save_auth_config` is the only
writer of the store, and always writes exactly this shape, so the store is
typed by it. -/
structure StoredData where
  function_call_id : String
  auth_config : JVal
  agent_session_id : String
  user_id : String
  invocation_id : Option String

/-- The file-based credential store of `app.py`: one JSON file per `state`
under the temp directory, modelled as a map from `state` to the stored
record. -/
def CredStore : Type := List (String × StoredData)

/-- `save_auth_config(state, config)` (app.py): writes the file for `state`,
overwriting any existing one. -/
def save_auth_config (store : CredStore) (state : String) (cfg : StoredData) :
    CredStore :=
  setEntry store state cfg

/-- `load_auth_config(state)` (app.py lines 75 to 88): if the file exists it
is read and then unlinked before the record is returned (read-once); a
missing file yields `None`.  Returns the record (or `none`) together with the
store after the side effect. -/
def load_auth_config (store : CredStore) (state : String) :
    Option StoredData × CredStore :=
  match lookupKey store state with
  | some cfg => (some cfg, eraseKey store state)
  | none => (none, store)

/-- The slice of `st.session_state` that `app.py` reads and writes around the
OAuth flow (initialised at lines 44 to 57; `agent_client` never changes in
the modelled paths and is omitted). -/
structure PendingAuthConfig where
  function_call_id : String
  auth_config : JVal
  invocation_id : Option String

structure SessionState where
  messages : List JVal
  user_id : String
  agent_session_id : Option String
  pending_auth_config : Option PendingAuthConfig
  oauth_ready : Bool
  original_query : Option String

/-- The callback URL `handle_oauth_callback` rebuilds (app.py line 460):
the registered redirect URI followed by the query parameters. -/
def redirect_uri : String := "http://127.0.0.1:8501/"

def callback_url (code state : String) : String :=
  redirect_uri ++ "?code=" ++ code ++ "&state=" ++ state

/-- The one permitted mutation of the opaque auth config (app.py lines 463 to
469): only when the config holds `exchanged_auth_credential` containing
`oauth2` is `auth_response_uri` set; no other spelling is tried. -/
def mutate_auth_config (cfg : JVal) (url : String) : JVal :=
  match cfg.get? "exchanged_auth_credential" with
  | some exc =>
      match exc.get? "oauth2" with
      | some o2 =>
          cfg.set "exchanged_auth_credential"
            (exc.set "oauth2" (o2.set "auth_response_uri" (.str url)))
      | none => cfg
  | none => cfg

/-- `handle_oauth_callback()` (app.py lines 437 to 494) after both `code` and
`state` were found in the query parameters: consume the stored record, restore
the session identity, mutate the config with the callback URL, and mark the
auth response ready.  The Bool reports whether a record was found. -/
def handle_oauth_callback (code state : String) (store : CredStore)
    (ss : SessionState) : SessionState × CredStore × Bool :=
  match load_auth_config store state with
  | (some d, store') =>
      let cfg := mutate_auth_config d.auth_config (callback_url code state)
      ({ ss with
           agent_session_id := some d.agent_session_id
           user_id := d.user_id
           pending_auth_config :=
             some ⟨d.function_call_id, cfg, d.invocation_id⟩
           oauth_ready := true },
       store', true)
  | (none, store') => (ss, store', false)

/-- The free names `auth_scheme` and `auth_type` read by `query_agent` at
app.py lines 200 and 206: neither is bound anywhere in `app.py` (they exist
only in the `space_agent` modules, which `app.py` does not import), so both
lookups are against an empty binding. -/
def auth_scheme_binding : Option JVal := none

def auth_type_binding : Option JVal := none

/-- The minimal-payload construction of `query_agent` (app.py lines 186 to
216), in Python evaluation order: first
`auth_config["exchanged_auth_credential"]["oauth2"]["auth_response_uri"]`,
then inside the dict literal the name `auth_scheme`, then
`auth_config["credential_key"]`, then the name `auth_type`.  Any raised
exception propagates (to the surrounding `except`). -/
def build_auth_message (p : PendingAuthConfig) : Except PyExn JVal :=
  match subscriptKey p.auth_config "exchanged_auth_credential" with
  | .error e => .error e
  | .ok exc =>
    match subscriptKey exc "oauth2" with
    | .error e => .error e
    | .ok o2 =>
      match subscriptKey o2 "auth_response_uri" with
      | .error e => .error e
      | .ok uriV =>
        match evalName auth_scheme_binding "auth_scheme" with
        | .error e => .error e
        | .ok schemeV =>
          match subscriptKey p.auth_config "credential_key" with
          | .error e => .error e
          | .ok credKey =>
            match evalName auth_type_binding "auth_type" with
            | .error e => .error e
            | .ok typeV =>
              .ok (.obj
                [("role", .str "user"),
                 ("parts", .arr
                   [.obj [("function_response", .obj
                     [("name", .str "adk_request_credential"),
                      ("id", .str p.function_call_id),
                      ("response", .obj
                        [("auth_scheme", schemeV),
                         ("credential_key", credKey),
                         ("exchanged_auth_credential", .obj
                           [("auth_type", typeV),
                            ("oauth2", .obj
                              [("auth_response_uri", uriV)])])])])]])])

/-- Projection helpers over the session state, used to observe the
correlation outcome. -/
def pendingCallId (ss : SessionState) : Option String :=
  ss.pending_auth_config.map (fun p => p.function_call_id)

def pendingUri (ss : SessionState) : Option JVal :=
  ss.pending_auth_config.bind (fun p =>
    getPath p.auth_config
      ["exchanged_auth_credential", "oauth2", "auth_response_uri"])

def buildFromSession (ss : SessionState) : Option (Except PyExn JVal) :=
  ss.pending_auth_config.map build_auth_message

/-- The accumulator of `query_agent`'s event loop (app.py lines 238 to 241
plus the credential store the loop writes through `save_auth_config`).
`event_count` is the source's own iteration counter (line 283). -/
structure TurnAcc where
  response_parts : List String
  oauth_detected : Bool
  auth_url : Option JVal
  event_count : Nat
  store : CredStore

/-- First entry of `event["actions"]["requested_auth_configs"]` when the
event is a dict holding a dict of at least one config (app.py lines 290 to
297); `next(iter(...))` takes the first key. -/
def first_auth_entry (ev : JVal) : Option (String × JVal) :=
  match ev.get? "actions" with
  | some actions =>
      match actions.get? "requested_auth_configs" with
      | some (.obj (kv :: _)) => some kv
      | _ => none
  | none => none

/-- `auth_config["exchanged_auth_credential"]["oauth2"]` guarded by the
membership and isinstance checks of app.py lines 300 to 307. -/
def oauth2_of (auth_config : JVal) : Option JVal :=
  match auth_config.get? "exchanged_auth_credential" with
  | some exc => exc.get? "oauth2"
  | none => none

/-- The authorization URL the detector would report for an event: present iff
the nested oauth2 object carries `auth_uri` (app.py lines 308 to 310). -/
def app_auth_uri (ev : JVal) : Option JVal :=
  match first_auth_entry ev with
  | some (_, cfg) =>
      match oauth2_of cfg with
      | some o2 => o2.get? "auth_uri"
      | none => none
  | none => none

/-- The auth-scanning pass of the event loop (app.py lines 289 to 330):
`oauth_detected` is set exactly when `auth_uri` is present; independently,
when a truthy `state` is present the storage record is written.  `uid` and
`sid` stand for `st.session_state.user_id` and
`st.session_state.agent_session_id`, both set before the loop runs.  The
`state` values this app consumes are strings (they are used as file-name
keys); a non-string state is outside the model. -/
def detect_step (uid sid : String) (acc : TurnAcc) (ev : JVal) : TurnAcc :=
  match first_auth_entry ev with
  | some (first_key, auth_config) =>
      match oauth2_of auth_config with
      | some o2 =>
          let acc1 :=
            match o2.get? "auth_uri" with
            | some u => { acc with auth_url := some u, oauth_detected := true }
            | none => acc
          match o2.get? "state" with
          | some (.str s) =>
              if s = "" then acc1
              else
                { acc1 with
                    store := save_auth_config acc1.store s
                      ⟨first_key, auth_config, sid, uid,
                       (match ev.get? "invocation_id" with
                        | some (.str i) => some i
                        | _ => none)⟩ }
          | _ => acc1
      | none => acc
  | none => acc

/-- First dict part carrying a `text` key (app.py lines 344 to 348; the inner
loop breaks at the first such part).  Non-string text values would fault at
the final join and do not occur in the streams; they yield `none` here. -/
def first_text : List JVal → Option String
  | [] => none
  | p :: rest =>
      match p.get? "text" with
      | some (.str t) => some t
      | some _ => none
      | none => first_text rest

/-- The text-extraction pass over one event, dictionary path (app.py lines
336 to 350): `event["content"]["parts"]` when content is a dict with a list
of parts, else `event["text"]` when `content` is absent or not a dict.  The
attribute path (lines 351 to 362) reads the same fields of object-shaped
events and is covered by the same JVal representation. -/
def extract_text (ev : JVal) : Option String :=
  match ev.get? "content" with
  | some (.obj c) =>
      match lookupKey c "parts" with
      | some (.arr parts) => first_text parts
      | _ => none
  | some _ =>
      match ev.get? "text" with
      | some (.str t) => some t
      | _ => none
  | none =>
      match ev.get? "text" with
      | some (.str t) => some t
      | _ => none

/-- The extracted fragment an event contributes to `response_parts`: only a
truthy extraction is appended (`if extracted_text:` at app.py line 364). -/
def extract_truthy (ev : JVal) : Option String :=
  match extract_text ev with
  | some t => if t = "" then none else some t
  | none => none

/-- One iteration of `async for event in events_async` (app.py lines 282 to
366): bump the counter, run the auth scan, then the text scan.  There is no
break in the source loop, so every event of the stream goes through this
step.  (Line 333 additionally snapshots `original_query` into the session;
that field is not read by any modelled path.) -/
def process_event (uid sid : String) (acc : TurnAcc) (ev : JVal) : TurnAcc :=
  let acc' := detect_step uid sid { acc with event_count := acc.event_count + 1 } ev
  match extract_truthy ev with
  | some t => { acc' with response_parts := acc'.response_parts ++ [t] }
  | none => acc'

/-- The result dict `query_agent` returns. -/
structure TurnResult where
  rtype : String
  content : String
  auth_url : Option JVal
  requires_auth : Bool

/-- Folding the accumulated state into the returned dict (app.py lines 370
to 385): the oauth outcome when detected, otherwise the joined text with the
no-response sentinel for an empty accumulation. -/
def finish (acc : TurnAcc) : TurnResult :=
  let full_response := pyJoin "\n" acc.response_parts
  if acc.oauth_detected then
    ⟨"oauth", "Authentication required to access MCP tools.",
     acc.auth_url, true⟩
  else
    ⟨"text",
     (if full_response = "" then "No response from agent." else full_response),
     none, false⟩

def initAcc (store : CredStore) : TurnAcc := ⟨[], false, none, 0, store⟩

/-- The whole event loop of `query_agent` on a stream that raises nothing:
every event is consumed (no break exists in the loop), then the result is
assembled.  The final accumulator is returned alongside to observe the
iteration count and the store. -/
def run_turn (uid sid : String) (events : List JVal) (store : CredStore) :
    TurnResult × TurnAcc :=
  let acc := events.foldl (process_event uid sid) (initAcc store)
  (finish acc, acc)

/-- The `except Exception` boundary of `query_agent` (app.py lines 387 to
405): an error message containing `auth` (or `oauth`) is classified as an
inferred auth requirement with no URL; anything else becomes a generic error
result (whose content in the source also appends a traceback). -/
def auth_text (e : PyExn) : Bool :=
  strHas (e.message.toLower) "auth" || strHas (e.message.toLower) "oauth"

def classify_exception (e : PyExn) : TurnResult :=
  if auth_text e then
    ⟨"oauth", "Authentication required: " ++ e.message, none, true⟩
  else
    ⟨"error", "Error: " ++ e.message, none, false⟩

/-- The event loop over a stream that may raise: `.ok ev` is a delivered
event, `.error e` is the stream raising at that point.  The raise aborts the
loop and is converted at the function boundary; store writes made before the
raise persist (the files are already on disk). -/
def run_turn_exc (uid sid : String) :
    List (Except PyExn JVal) → TurnAcc → TurnResult × TurnAcc
  | [], acc => (finish acc, acc)
  | .ok ev :: rest, acc => run_turn_exc uid sid rest (process_event uid sid acc ev)
  | .error e :: _, acc => (classify_exception e, acc)

end App

namespace Runner

/-- The record `app_with_runner.py` persists (`storage_data`, lines 275 to
281). -/
structure StoredData where
  function_call_id : String
  auth_config : JVal
  session_id : String
  user_id : String
  invocation_id : Option String

def CredStore : Type := List (String × StoredData)

def save_auth_config (store : CredStore) (state : String) (cfg : StoredData) :
    CredStore :=
  setEntry store state cfg

/-- `load_auth_config(state)` (app_with_runner.py lines 108 to 116): reads the
file when it exists and returns the data; the file is NOT deleted, unlike the
variant in app.py. -/
def load_auth_config (store : CredStore) (state : String) :
    Option StoredData × CredStore :=
  (lookupKey store state, store)

/-- `REQUEST_EUC_FUNCTION_CALL_NAME` imported from the ADK: the reserved
credential-request function name, spelled out literally in the sibling
sources. -/
def REQUEST_EUC_NAME : String := "adk_request_credential"

/-- `get_auth_request_function_call(event)` (lines 68 to 76): the first part
of a truthy `event.content` whose truthy `function_call` is named with the
reserved name. -/
def find_auth_fc : List JVal → Option JVal
  | [] => none
  | p :: rest =>
      match p.get? "function_call" with
      | some fc =>
          if pyTruthy fc then
            match fc.get? "name" with
            | some (.str n) =>
                if n = REQUEST_EUC_NAME then some fc else find_auth_fc rest
            | _ => find_auth_fc rest
          else find_auth_fc rest
      | none => find_auth_fc rest

def get_auth_request_function_call (ev : JVal) : Option JVal :=
  match ev.get? "content" with
  | some content =>
      if pyTruthy content then
        match content.get? "parts" with
        | some (.arr parts) => find_auth_fc parts
        | _ => none
      else none
  | none => none

/-- `get_auth_config(function_call)` (lines 79 to 90): `args.authConfig` or
`args.auth_config`, Python `or` (truthiness) semantics. -/
def get_auth_config (fc : JVal) : Option JVal :=
  match fc.get? "args" with
  | some args => pyOr (args.get? "authConfig") (args.get? "auth_config")
  | none => none

/-- URL/state extraction from the auth config (lines 233 to 247, dict
branch; the attribute branch reads the same fields): try
`exchangedAuthCredential` then `exchanged_auth_credential`, then `oauth2`,
then `authUri` or `auth_uri`, and `state`. -/
def extract_url_state (auth_config : JVal) : Option JVal × Option JVal :=
  let exc :=
    match pyOr (auth_config.get? "exchangedAuthCredential")
               (some (jGetD auth_config "exchanged_auth_credential" (.obj []))) with
    | some v => v
    | none => .obj []
  match exc with
  | .obj kvs =>
      if (List.isEmpty kvs) then (none, none)
      else
        match jGetD (.obj kvs) "oauth2" (.obj []) with
        | .obj o2 =>
            if (List.isEmpty o2) then (none, none)
            else
              (pyOr (lookupKey o2 "authUri") (lookupKey o2 "auth_uri"),
               lookupKey o2 "state")
        | _ => (none, none)
  | _ => (none, none)

/-- The casing-tolerant field mutation of the OAuth callback handler
(app_with_runner.py lines 382 to 388): camelCase is tried first, snake_case
only when the camelCase key is absent, and the response-URI key mirrors the
casing of the container that was found. -/
def update_auth_config (cfg : JVal) (url : String) : JVal :=
  match cfg.get? "exchangedAuthCredential" with
  | some exc =>
      match exc.get? "oauth2" with
      | some o2 =>
          cfg.set "exchangedAuthCredential"
            (exc.set "oauth2" (o2.set "authResponseUri" (.str url)))
      | none => cfg
  | none =>
      match cfg.get? "exchanged_auth_credential" with
      | some exc =>
          match exc.get? "oauth2" with
          | some o2 =>
              cfg.set "exchanged_auth_credential"
                (exc.set "oauth2" (o2.set "auth_response_uri" (.str url)))
          | none => cfg
      | none => cfg

/-- Result of `query_agent` in the runner variant, with the loop locals
exposed: the accumulated text parts, the count of events consumed from the
stream, and the store.  The source messages containing contractions are
written out without the apostrophe; no claim depends on their exact text. -/
structure Outcome where
  rtype : String
  content : String
  auth_url : Option JVal
  parts : List String
  consumed : Nat
  store : CredStore

/-- All text parts of one non-auth event (lines 293 to 298: every part with a
`text` attribute is appended, with no truthiness filter). -/
def texts_of (ev : JVal) : List String :=
  match ev.get? "content" with
  | some c =>
      match c.get? "parts" with
      | some (.arr parts) =>
          parts.filterMap (fun p =>
            match p.get? "text" with
            | some (.str t) => some t
            | _ => none)
      | _ => []
  | none => []

/-- Stream end / break path (lines 310 to 325): joined text when any was
accumulated, an error when auth was requested but unusable, else the defined
no-response text. -/
def finish_events (parts : List String) (authId : Option String) (n : Nat)
    (store : CredStore) : Outcome :=
  if parts.isEmpty then
    match authId with
    | some _ =>
        ⟨"error",
         "Authentication was requested but could not extract the authorization URL.",
         none, parts, n, store⟩
    | none =>
        ⟨"text", "I received your message but could not generate a response.",
         none, parts, n, store⟩
  else ⟨"text", pyJoin "\n\n" parts, none, parts, n, store⟩

/-- The event loop of the runner `query_agent` (lines 202 to 305): on the
first event carrying the reserved credential-request function call the loop
either returns the auth-required outcome at once (complete extraction) or
breaks (incomplete extraction); it never touches the remaining events.
`inv` threads `st.session_state.paused_invocation_id`. -/
def run_events (uid sid : String) (inv : Option String) :
    List JVal → List String → Nat → CredStore → Outcome
  | [], parts, n, store => finish_events parts none n store
  | ev :: rest, parts, n, store =>
      match get_auth_request_function_call ev with
      | some fc =>
          match fc.get? "id" with
          | some (.str fcid) =>
              if fcid = "" then
                ⟨"error", "Error: Cannot get function call id from function call",
                 none, parts, n + 1, store⟩
              else
                let inv' :=
                  match ev.get? "invocation_id" with
                  | some (.str i) => some i
                  | _ => inv
                match get_auth_config fc with
                | some cfg =>
                    match extract_url_state cfg with
                    | (some u, some (.str s)) =>
                        if pyTruthy u && s ≠ "" then
                          ⟨"auth_required",
                           "Authentication required. Please click the link to authorize.",
                           some u, parts, n + 1,
                           save_auth_config store s ⟨fcid, cfg, sid, uid, inv'⟩⟩
                        else finish_events parts (some fcid) (n + 1) store
                    | _ => finish_events parts (some fcid) (n + 1) store
                | none => finish_events parts (some fcid) (n + 1) store
          | _ =>
              ⟨"error", "Error: Cannot get function call id from function call",
               none, parts, n + 1, store⟩
      | none =>
          run_events uid sid inv rest (parts ++ texts_of ev) (n + 1) store

end Runner

namespace Deployed

/-- The record `app_deployed.py` persists (`storage_data`, lines 233 to 238):
no invocation id, and the function-call id may be absent (`fc.get('id')`). -/
structure StoredData where
  function_call_id : Option String
  auth_config : JVal
  session_id : String
  user_id : String

def CredStore : Type := List (String × StoredData)

def save_auth_config (store : CredStore) (state : String) (cfg : StoredData) :
    CredStore :=
  setEntry store state cfg

/-- First part of `event["parts"]` carrying a `function_call` named
`adk_request_credential` (app_deployed.py lines 212 to 215); parts with other
function calls are skipped without breaking. -/
def find_credential_fc : List JVal → Option JVal
  | [] => none
  | p :: rest =>
      match p.get? "function_call" with
      | some fc =>
          match fc.get? "name" with
          | some (.str n) =>
              if n = "adk_request_credential" then some fc
              else find_credential_fc rest
          | _ => find_credential_fc rest
      | none => find_credential_fc rest

/-- `event.get('parts', [])` restricted to a list. -/
def parts_of (ev : JVal) : List JVal :=
  match ev.get? "parts" with
  | some (.arr ps) => ps
  | _ => []

/-- All text parts of one event (lines 249 to 252; runs after the
function-call scan, for every event the loop does not return from). -/
def texts_of (ev : JVal) : List String :=
  (parts_of ev).filterMap (fun p =>
    match p.get? "text" with
    | some (.str t) => some t
    | _ => none)

/-- URL/state extraction of the deployed detector (lines 226 to 229): only
the camelCase `exchangedAuthCredential` container is tried here, then
`authUri` or `auth_uri`, and `state`. -/
def extract_url_state (auth_config : JVal) : Option JVal × Option JVal :=
  let exc := jGetD auth_config "exchangedAuthCredential" (.obj [])
  let o2 := jGetD exc "oauth2" (.obj [])
  (pyOr (o2.get? "authUri") (o2.get? "auth_uri"), o2.get? "state")

/-- Result of the deployed `query_agent` with the loop locals exposed. -/
structure Outcome where
  rtype : String
  content : String
  auth_url : Option JVal
  parts : List String
  consumed : Nat
  store : CredStore

/-- Stream end (lines 257 to 271). -/
def finish_events (parts : List String) (authFlag : Bool) (n : Nat)
    (store : CredStore) : Outcome :=
  if parts.isEmpty then
    if authFlag then
      ⟨"error",
       "Authentication was requested but could not extract the authorization URL.",
       none, parts, n, store⟩
    else
      ⟨"text", "I received your message but could not generate a response.",
       none, parts, n, store⟩
  else ⟨"text", pyJoin "\n\n" parts, none, parts, n, store⟩

/-- The event loop of the deployed `query_agent` (lines 203 to 254).  On a
complete credential request it saves the record and returns at once, without
extracting that event's text; on an incomplete one it falls through to the
text scan of the same event and keeps consuming the stream. -/
def run_events (uid sid : String) :
    List JVal → List String → Bool → Nat → CredStore → Outcome
  | [], parts, authFlag, n, store => finish_events parts authFlag n store
  | ev :: rest, parts, authFlag, n, store =>
      match find_credential_fc (parts_of ev) with
      | some fc =>
          let cfg? := pyOr ((jGetD fc "args" (.obj [])).get? "authConfig")
                           ((jGetD fc "args" (.obj [])).get? "auth_config")
          let fcid :=
            match fc.get? "id" with
            | some (.str i) => some i
            | _ => none
          match cfg? with
          | some cfg =>
              if pyTruthy cfg then
                match extract_url_state cfg with
                | (some u, some (.str s)) =>
                    if pyTruthy u && s ≠ "" then
                      ⟨"auth_required",
                       "Authentication required. Please click the link to authorize.",
                       some u, parts, n + 1,
                       save_auth_config store s ⟨fcid, cfg, sid, uid⟩⟩
                    else
                      run_events uid sid rest (parts ++ texts_of ev) true
                        (n + 1) store
                | _ =>
                    run_events uid sid rest (parts ++ texts_of ev) true
                      (n + 1) store
              else
                run_events uid sid rest (parts ++ texts_of ev) true (n + 1) store
          | none =>
              run_events uid sid rest (parts ++ texts_of ev) true (n + 1) store
      | none =>
          run_events uid sid rest (parts ++ texts_of ev) authFlag (n + 1) store

/-- The exception boundary of the deployed `query_agent` (lines 273 to 288):
an `AttributeError` mentioning neither `async_create_session` nor
`async_stream_query` is re-raised out of the handler (its sibling
`except Exception` clause does not catch it), every other exception becomes
an error result. -/
def query_boundary (r : Except PyExn Outcome) : Except PyExn Outcome :=
  match r with
  | .ok v => .ok v
  | .error (.attributeError m) =>
      if strHas m "async_create_session" || strHas m "async_stream_query" then
        .ok ⟨"error",
             "The deployed agent does not support the required methods. Error: " ++ m,
             none, [], 0, []⟩
      else .error (.attributeError m)
  | .error e =>
      .ok ⟨"error", "Error: " ++ e.message, none, [], 0, []⟩

/-- Whether a boundary result is still a raised exception (an unhandled
fault escaping `query_agent`). -/
def isUnhandled (r : Except PyExn Outcome) : Bool :=
  match r with
  | .error _ => true
  | .ok _ => false

end Deployed

/- Concrete fixtures: streams, configs and records used to evaluate the
   embedded code on specific inputs. -/

/-- A snake_case auth config as the Agent Engine stream delivers it to
`app.py` (the shape `query_agent` scans at lines 300 to 313). -/
def sampleAuthConfig : JVal :=
  .obj [("credential_key", .str "apollo-key"),
        ("exchanged_auth_credential", .obj
          [("oauth2", .obj
            [("auth_uri", .str "https://idp.example/authorize"),
             ("state", .str "xyz42")])])]

/-- A camelCase keying of the same config, as the direct-runner backend
emits it. -/
def cfgCamel : JVal :=
  .obj [("exchangedAuthCredential", .obj
          [("oauth2", .obj
            [("auth_uri", .str "https://idp.example/authorize"),
             ("state", .str "xyz42")])])]

def d0 : App.StoredData :=
  ⟨"call-7", sampleAuthConfig, "sess-1", "user-9", some "inv-3"⟩

def store0 : App.CredStore := [("xyz42", d0)]

/-- Fresh `st.session_state` as initialised at app.py lines 44 to 57. -/
def ss0 : App.SessionState := ⟨[], "user_123", none, none, false, none⟩

def rd0 : Runner.StoredData := ⟨"call-9", cfgCamel, "sess-2", "user-8", none⟩

def rstore0 : Runner.CredStore := [("xyz42", rd0)]

/-- An Agent Engine stream event requesting auth, as `app.py` scans it. -/
def mkAuthCfgApp (u s : String) : JVal :=
  .obj [("exchanged_auth_credential", .obj
          [("oauth2", .obj [("auth_uri", .str u), ("state", .str s)])])]

def mkAuthEventApp (key u s : String) : JVal :=
  .obj [("actions", .obj
          [("requested_auth_configs", .obj [(key, mkAuthCfgApp u s)])])]

/-- An auth-looking event whose oauth2 object carries `auth_uri` but no
`state`. -/
def evUriOnly : JVal :=
  .obj [("actions", .obj
          [("requested_auth_configs", .obj
            [("call-1", .obj
              [("exchanged_auth_credential", .obj
                [("oauth2", .obj
                  [("auth_uri", .str "https://idp.example/authorize")])])])])])]

/-- An event carrying both an auth request and a text part. -/
def mkAuthTextEventApp (key u s txt : String) : JVal :=
  .obj [("actions", .obj
          [("requested_auth_configs", .obj [(key, mkAuthCfgApp u s)])]),
        ("content", .obj [("parts", .arr [.obj [("text", .str txt)]])])]

/-- A plain text event. -/
def mkTextEventApp (txt : String) : JVal :=
  .obj [("content", .obj [("parts", .arr [.obj [("text", .str txt)]])])]

/-- A runner-stream event whose first content part is the reserved
credential-request function call, with a camelCase-keyed auth config. -/
def mkRunnerAuthCfg (u s : String) : JVal :=
  .obj [("exchangedAuthCredential", .obj
          [("oauth2", .obj [("authUri", .str u), ("state", .str s)])])]

def mkRunnerAuthEvent (fcid u s : String) : JVal :=
  .obj [("content", .obj
          [("parts", .arr
            [.obj [("function_call", .obj
              [("name", .str "adk_request_credential"),
               ("id", .str fcid),
               ("args", .obj [("authConfig", mkRunnerAuthCfg u s)])])]])])]

/-- A deployed-stream event carrying a complete credential-request function
call and a text part. -/
def deployedAuthTextEvent : JVal :=
  .obj [("parts", .arr
          [.obj [("function_call", .obj
            [("name", .str "adk_request_credential"),
             ("id", .str "fc-1"),
             ("args", .obj [("authConfig", .obj
               [("exchangedAuthCredential", .obj
                 [("oauth2", .obj
                   [("authUri", .str "https://idp.example/authorize"),
                    ("state", .str "s-1")])])])])])],
           .obj [("text", .str "Partial answer")]])]

/-- An `AttributeError` whose message mentions neither
`async_create_session` nor `async_stream_query`. -/
def probeExn : PyExn :=
  .attributeError "SpaceObject instance has no attribute run_live"

/-- Wrapping an oauth2 object in a camelCase (resp. snake_case) keyed
config. -/
def camelWrap (o2 : List (String × JVal)) : JVal :=
  .obj [("exchangedAuthCredential", .obj [("oauth2", .obj o2)])]

def snakeWrap (o2 : List (String × JVal)) : JVal :=
  .obj [("exchanged_auth_credential", .obj [("oauth2", .obj o2)])]

/-- A mutated, well-formed pending record exactly as the callback handler
leaves it for the resume encoder: the config carries `credential_key` and
`exchanged_auth_credential.oauth2.auth_response_uri`. -/
def mutatedCfg : JVal :=
  .obj [("credential_key", .str "apollo-key"),
        ("exchanged_auth_credential", .obj
          [("oauth2", .obj
            [("auth_uri", .str "https://idp.example/authorize"),
             ("state", .str "xyz42"),
             ("auth_response_uri",
              .str "http://127.0.0.1:8501/?code=abc&state=xyz42")])])]

def p3 : App.PendingAuthConfig := ⟨"call-7", mutatedCfg, some "inv-3"⟩

/- General lemmas about the store and string primitives. -/

theorem lookupKey_eraseKey {α : Type} (l : List (String × α)) (k : String) :
    lookupKey (eraseKey l k) k = none := by
  induction l with
  | nil => rfl
  | cons p rest ih =>
    obtain ⟨k', v⟩ := p
    by_cases h : k' = k
    · simp [eraseKey, h, ih]
    · simp [eraseKey, h, lookupKey, ih]

theorem lookupKey_setEntry {α : Type} (l : List (String × α)) (k : String) (v : α) :
    lookupKey (setEntry l k v) k = some v := by
  induction l with
  | nil => simp [setEntry, lookupKey]
  | cons p rest ih =>
    obtain ⟨k', v'⟩ := p
    by_cases h : k' = k
    · simp [setEntry, h, lookupKey]
    · simp [setEntry, h, lookupKey, ih]

theorem strPosLen (a : String) (h : a ≠ "") : 0 < a.length := by
  cases a with
  | mk data =>
    cases data with
    | nil => exact absurd rfl h
    | cons c cs => simp [String.length]

theorem strAppendNe (a b : String) (h : a ≠ "") : a ++ b ≠ "" := by
  intro hab
  have hl := congrArg String.length hab
  rw [String.length_append] at hl
  have ha := strPosLen a h
  have h0 : ("" : String).length = 0 := rfl
  omega

theorem pyJoin_ne (sep a : String) (rest : List String) (h : a ≠ "") :
    pyJoin sep (a :: rest) ≠ "" := by
  cases rest with
  | nil => simpa [pyJoin] using h
  | cons b bs =>
    simp only [pyJoin]
    exact strAppendNe _ _ (strAppendNe a sep h)

/- Structural lemmas about the app.py event loop. -/

theorem detect_step_parts (uid sid : String) (acc : App.TurnAcc) (ev : JVal) :
    (App.detect_step uid sid acc ev).response_parts = acc.response_parts := by
  unfold App.detect_step
  repeat' split
  all_goals rfl

theorem detect_step_count (uid sid : String) (acc : App.TurnAcc) (ev : JVal) :
    (App.detect_step uid sid acc ev).event_count = acc.event_count := by
  unfold App.detect_step
  repeat' split
  all_goals rfl

theorem detect_step_oauth (uid sid : String) (acc : App.TurnAcc) (ev : JVal) :
    (App.detect_step uid sid acc ev).oauth_detected
      = (acc.oauth_detected || (App.app_auth_uri ev).isSome) := by
  unfold App.detect_step App.app_auth_uri
  repeat' split
  all_goals simp_all

theorem process_event_parts (uid sid : String) (acc : App.TurnAcc) (ev : JVal) :
    (App.process_event uid sid acc ev).response_parts
      = acc.response_parts ++ (App.extract_truthy ev).toList := by
  unfold App.process_event
  cases h : App.extract_truthy ev with
  | none => simp [detect_step_parts]
  | some t => simp [detect_step_parts]

theorem process_event_oauth (uid sid : String) (acc : App.TurnAcc) (ev : JVal) :
    (App.process_event uid sid acc ev).oauth_detected
      = (acc.oauth_detected || (App.app_auth_uri ev).isSome) := by
  unfold App.process_event
  cases h : App.extract_truthy ev with
  | none => simp [detect_step_oauth]
  | some t =>
      have := detect_step_oauth uid sid
        { acc with event_count := acc.event_count + 1 } ev
      simp_all

theorem foldl_process_parts (uid sid : String) (events : List JVal)
    (acc : App.TurnAcc) :
    (events.foldl (App.process_event uid sid) acc).response_parts
      = acc.response_parts ++ events.filterMap App.extract_truthy := by
  induction events generalizing acc with
  | nil => simp
  | cons ev rest ih =>
    simp only [List.foldl_cons, List.filterMap_cons]
    cases h : App.extract_truthy ev with
    | none => rw [ih]; rw [process_event_parts]; simp [h]
    | some t => rw [ih]; rw [process_event_parts]; simp [h]

theorem foldl_process_oauth (uid sid : String) (events : List JVal)
    (acc : App.TurnAcc) :
    (events.foldl (App.process_event uid sid) acc).oauth_detected
      = (acc.oauth_detected
          || events.any (fun ev => (App.app_auth_uri ev).isSome)) := by
  induction events generalizing acc with
  | nil => simp
  | cons ev rest ih =>
    simp only [List.foldl_cons, List.any_cons]
    rw [ih, process_event_oauth, Bool.or_assoc]

theorem extract_truthy_ne (ev : JVal) (t : String)
    (h : App.extract_truthy ev = some t) : t ≠ "" := by
  unfold App.extract_truthy at h
  cases h' : App.extract_text ev with
  | none => rw [h'] at h; exact absurd h (by simp)
  | some t' =>
      rw [h'] at h
      by_cases he : t' = ""
      · simp [he] at h
      · simp [he] at h; exact h ▸ he

theorem finish_requires (acc : App.TurnAcc) :
    (App.finish acc).requires_auth = acc.oauth_detected := by
  unfold App.finish
  by_cases h : acc.oauth_detected <;> simp [h]

/-- Claim C1, counterexample: the claim cites the `load_auth_config` of
`few_tries/app_with_runner.py` as a consume operation, but that variant does
not delete the record on a successful read: after a consume of state
`xyz42` returns the stored record, a second consume of the same state
returns the record again instead of NotFound. -/
theorem c1_runner_not_read_once :
    (Runner.load_auth_config rstore0 "xyz42").1 = some rd0 ∧
    ((Runner.load_auth_config
        (Runner.load_auth_config rstore0 "xyz42").2 "xyz42").1).isSome
      = true :=
  ⟨rfl, rfl⟩

/-- Claim C1, amended: in `app.py` consuming is read-once — when
`load_auth_config` returns a stored record the record has been deleted as an
effect of the successful read (so before any resume payload is built from
the returned value), and a second consume of the same state returns
NotFound; the `app_with_runner.py` variant lacks the deletion. -/
theorem c1_read_once_app (store : App.CredStore) (state : String)
    (cfg : App.StoredData) (store2 : App.CredStore)
    (h : App.load_auth_config store state = (some cfg, store2)) :
    lookupKey store2 state = none ∧
    (App.load_auth_config store2 state).1 = none := by
  unfold App.load_auth_config at h ⊢
  cases h' : lookupKey store state with
  | none => rw [h'] at h; simp at h
  | some d =>
      rw [h'] at h
      have h2 : store2 = eraseKey store state := by
        have := congrArg Prod.snd h
        simpa using this.symm
      subst h2
      have hn : lookupKey (eraseKey store state) state = none :=
        lookupKey_eraseKey store state
      refine ⟨hn, ?_⟩
      rw [hn]

/-- Witness for C1's amended theorem at a concrete store. -/
theorem c1_read_once_app_witness :
    App.load_auth_config store0 "xyz42" = (some d0, []) ∧
    (lookupKey ([] : App.CredStore) "xyz42" = none ∧
     (App.load_auth_config ([] : App.CredStore) "xyz42").1 = none) :=
  ⟨rfl, c1_read_once_app store0 "xyz42" d0 [] rfl⟩

/-- Claim C2, code bug: registering a pending authorization with state
`xyz42` and call id `call-7` and then processing the callback
`(code = abc, state = xyz42)` does set the pending record's call id to
`call-7` and its embedded authorization response URI to exactly
`http://127.0.0.1:8501/?code=abc&state=xyz42` — but the resume payload
itself is never produced: the minimal-payload construction of
`query_agent` reads the unbound names `auth_scheme` and `auth_type`
(app.py lines 200 and 206) and raises NameError on the first of them. -/
theorem c2_roundtrip_payload_nameerror :
    App.pendingCallId
        (App.handle_oauth_callback "abc" "xyz42"
          (App.save_auth_config [] "xyz42" d0) ss0).1
      = some "call-7" ∧
    App.pendingUri
        (App.handle_oauth_callback "abc" "xyz42"
          (App.save_auth_config [] "xyz42" d0) ss0).1
      = some (.str "http://127.0.0.1:8501/?code=abc&state=xyz42") ∧
    App.buildFromSession
        (App.handle_oauth_callback "abc" "xyz42"
          (App.save_auth_config [] "xyz42" d0) ss0).1
      = some (.error (.nameError "auth_scheme")) :=
  ⟨rfl, rfl, rfl⟩

/-- Claim C3, code bug: on a well-formed mutated pending record (config
carrying `credential_key` and
`exchanged_auth_credential.oauth2.auth_response_uri`), building the
minimal-variant resume message does not succeed: evaluation of the response
object reaches the unbound name `auth_scheme` and raises NameError, so no
message of the claimed shape is ever constructed. -/
theorem c3_minimal_payload_nameerror :
    getPath p3.auth_config
        ["exchanged_auth_credential", "oauth2", "auth_response_uri"]
      = some (.str "http://127.0.0.1:8501/?code=abc&state=xyz42") ∧
    p3.auth_config.get? "credential_key" = some (.str "apollo-key") ∧
    App.build_auth_message p3 = .error (.nameError "auth_scheme") :=
  ⟨rfl, rfl, rfl⟩

/-- Claim C4, counterexample: `handle_oauth_callback` in `app.py` (cited by
the claim) only handles snake_case configs: a camelCase-keyed stored config
is returned unchanged by the mutation step, and no authorization response
URI is set under either casing, so correlation does not set the URI
identically for the two casings. -/
theorem c4_app_camel_unmutated :
    App.mutate_auth_config cfgCamel (App.callback_url "abc" "xyz42")
      = cfgCamel ∧
    getPath (App.mutate_auth_config cfgCamel (App.callback_url "abc" "xyz42"))
        ["exchangedAuthCredential", "oauth2", "authResponseUri"] = none ∧
    getPath (App.mutate_auth_config cfgCamel (App.callback_url "abc" "xyz42"))
        ["exchanged_auth_credential", "oauth2", "auth_response_uri"] = none :=
  ⟨rfl, rfl, rfl⟩

/-- Claim C4, amended: casing tolerance holds in the
`app_with_runner.py` callback handler (and the identical code in
`app_deployed.py`): for any stored oauth2 object, mutation sets the
authorization response URI to the same URL whether the config keys its
fields in camelCase or snake_case, mirroring the casing of the original
object; the handler in `app.py`, however, mutates only snake_case configs
and leaves camelCase ones unchanged. -/
theorem c4_runner_casing_tolerance (o2 : List (String × JVal)) (url : String) :
    getPath (Runner.update_auth_config (camelWrap o2) url)
        ["exchangedAuthCredential", "oauth2", "authResponseUri"]
      = some (.str url) ∧
    getPath (Runner.update_auth_config (snakeWrap o2) url)
        ["exchanged_auth_credential", "oauth2", "auth_response_uri"]
      = some (.str url) := by
  constructor
  · simp [Runner.update_auth_config, camelWrap, JVal.get?, lookupKey,
      JVal.set, setEntry, getPath, lookupKey_setEntry]
  · simp [Runner.update_auth_config, snakeWrap, JVal.get?, lookupKey,
      JVal.set, setEntry, getPath, lookupKey_setEntry]

/-- Claim C5, counterexample: the `query_agent` loop in `app.py` (cited by
the claim) has no break: on a stream whose first event is auth-detected,
the driver still consumes the second event (its iteration counter reaches
2) and even registers the second event's pending record — it drains the
stream instead of stopping at the detection. -/
theorem c5_app_drains :
    (App.app_auth_uri
        (mkAuthEventApp "call-1" "https://idp.example/a1" "s1")).isSome
      = true ∧
    (App.run_turn "user_123" "sess-1"
        [mkAuthEventApp "call-1" "https://idp.example/a1" "s1",
         mkAuthEventApp "call-2" "https://idp.example/a2" "s2"]
        []).1.requires_auth = true ∧
    (App.run_turn "user_123" "sess-1"
        [mkAuthEventApp "call-1" "https://idp.example/a1" "s1",
         mkAuthEventApp "call-2" "https://idp.example/a2" "s2"]
        []).2.event_count = 2 ∧
    (lookupKey
        (App.run_turn "user_123" "sess-1"
          [mkAuthEventApp "call-1" "https://idp.example/a1" "s1",
           mkAuthEventApp "call-2" "https://idp.example/a2" "s2"]
          []).2.store "s2").isSome = true :=
  ⟨rfl, rfl, rfl, rfl⟩

/-- Claim C5, amended: the `app_with_runner.py` driver does stop: on the
first event carrying a complete credential request it registers the pending
record and returns at once, consuming exactly that one event no matter what
the rest of the stream holds; the `app.py` driver instead keeps consuming
every remaining event after the detection and reports the suspension only
when the stream ends. -/
theorem c5_runner_stops (uid sid : String) (inv : Option String)
    (fcid u s : String) (suffix : List JVal) (parts : List String) (n : Nat)
    (store : Runner.CredStore)
    (hf : fcid ≠ "") (hu : u ≠ "") (hs : s ≠ "") :
    Runner.run_events uid sid inv (mkRunnerAuthEvent fcid u s :: suffix)
        parts n store
      = ⟨"auth_required",
         "Authentication required. Please click the link to authorize.",
         some (.str u), parts, n + 1,
         Runner.save_auth_config store s
           ⟨fcid, mkRunnerAuthCfg u s, sid, uid, inv⟩⟩ := by
  simp [Runner.run_events, Runner.get_auth_request_function_call,
    Runner.find_auth_fc, Runner.get_auth_config, Runner.extract_url_state,
    Runner.REQUEST_EUC_NAME, mkRunnerAuthEvent, mkRunnerAuthCfg,
    JVal.get?, lookupKey, pyTruthy, pyOr, jGetD, hf, hu, hs]

/-- Witness for C5's amended theorem at a concrete event and stream. -/
theorem c5_runner_stops_witness :
    (("call-9" : String) ≠ "" ∧ ("https://idp.example/authorize" : String) ≠ ""
      ∧ ("xyz42" : String) ≠ "") ∧
    Runner.run_events "user_123" "sess-2" none
        [mkRunnerAuthEvent "call-9" "https://idp.example/authorize" "xyz42",
         JVal.null] [] 0 []
      = ⟨"auth_required",
         "Authentication required. Please click the link to authorize.",
         some (.str "https://idp.example/authorize"), [], 1,
         Runner.save_auth_config [] "xyz42"
           ⟨"call-9", mkRunnerAuthCfg "https://idp.example/authorize" "xyz42",
            "sess-2", "user_123", none⟩⟩ :=
  ⟨⟨by decide, by decide, by decide⟩,
   c5_runner_stops "user_123" "sess-2" none "call-9"
     "https://idp.example/authorize" "xyz42" [JVal.null] [] 0 []
     (by decide) (by decide) (by decide)⟩

/-- Helper: an event with no requested-auth-configs entry reports no
authorization URL. -/
theorem app_auth_uri_none (ev : JVal)
    (h : App.first_auth_entry ev = none) : App.app_auth_uri ev = none := by
  unfold App.app_auth_uri
  rw [h]

/-- Claim C6, counterexample: in `app.py` an auth-looking event whose
oauth2 object carries `auth_uri` but no `state` is still classified and
reported as authorization required (and nothing is registered), instead of
being degraded to a normal non-auth content event as the claim requires. -/
theorem c6_missing_state_still_auth :
    getPath evUriOnly
        ["actions", "requested_auth_configs", "call-1",
         "exchanged_auth_credential", "oauth2", "state"] = none ∧
    getPath evUriOnly
        ["actions", "requested_auth_configs", "call-1",
         "exchanged_auth_credential", "oauth2", "auth_uri"]
      = some (.str "https://idp.example/authorize") ∧
    (App.run_turn "user_123" "sess-1" [evUriOnly] []).1.rtype = "oauth" ∧
    (App.run_turn "user_123" "sess-1" [evUriOnly] []).1.requires_auth = true ∧
    (App.run_turn "user_123" "sess-1" [evUriOnly] []).2.store = [] :=
  ⟨rfl, rfl, rfl, rfl, rfl⟩

/-- Claim C6, amended: the `app.py` detector classifies a streamed event as
authorization-required exactly when the first requested auth config carries
`auth_uri` in its nested oauth2 object — the presence of `state` is not part
of the classification (it governs only whether a pending record is saved),
so an auth-looking event missing `state` is still reported as authorization
required, while one missing `auth_uri` is treated as non-auth content. -/
theorem c6_detect_iff_auth_uri (uid sid : String) (ev : JVal)
    (store : App.CredStore) :
    (App.run_turn uid sid [ev] store).1.requires_auth
      = (App.app_auth_uri ev).isSome := by
  simp [App.run_turn, finish_requires, foldl_process_oauth, App.initAcc,
    process_event_oauth]

/-- Claim C7, counterexample: in `app_deployed.py` (cited by the claim) an
event carrying both a complete credential-request function call and a text
part returns the auth-required outcome immediately: the pending record is
saved, but the event's text part (present, as the third conjunct shows) is
never accumulated into the response. -/
theorem c7_deployed_drops_text :
    Deployed.texts_of deployedAuthTextEvent = ["Partial answer"] ∧
    (Deployed.run_events "user_123" "sess-1" [deployedAuthTextEvent]
        [] false 0 []).rtype = "auth_required" ∧
    (Deployed.run_events "user_123" "sess-1" [deployedAuthTextEvent]
        [] false 0 []).parts = [] ∧
    (lookupKey (Deployed.run_events "user_123" "sess-1"
        [deployedAuthTextEvent] [] false 0 []).store "s-1").isSome = true :=
  ⟨rfl, rfl, rfl, rfl⟩

/-- Claim C7, amended: in `app.py` text extraction and auth detection are
indeed independent passes: an event carrying both a text part and an auth
request (with a truthy state) yields the accumulated text AND a registered
pending record with the turn reported as suspended; in `app_deployed.py`,
however, a complete detection returns before the text scan, dropping that
event's text. -/
theorem c7_app_text_and_auth (uid sid key u s txt : String)
    (store : App.CredStore) (hs : s ≠ "") (ht : txt ≠ "") :
    (App.run_turn uid sid [mkAuthTextEventApp key u s txt] store).1.rtype
      = "oauth" ∧
    (App.run_turn uid sid [mkAuthTextEventApp key u s txt]
        store).1.requires_auth = true ∧
    (App.run_turn uid sid [mkAuthTextEventApp key u s txt]
        store).2.response_parts = [txt] ∧
    (lookupKey (App.run_turn uid sid [mkAuthTextEventApp key u s txt]
        store).2.store s).map App.StoredData.function_call_id = some key := by
  simp [App.run_turn, App.process_event, App.detect_step, App.first_auth_entry,
    App.oauth2_of, App.extract_truthy, App.extract_text, App.first_text,
    mkAuthTextEventApp, mkAuthCfgApp, JVal.get?, lookupKey, App.initAcc,
    App.finish, App.save_auth_config, lookupKey_setEntry, hs, ht]

/-- Witness for C7's amended theorem at a concrete event. -/
theorem c7_app_text_and_auth_witness :
    (("xyz42" : String) ≠ "" ∧ ("Partial answer" : String) ≠ "") ∧
    ((App.run_turn "user_123" "sess-1"
        [mkAuthTextEventApp "call-7" "https://idp.example/authorize" "xyz42"
          "Partial answer"] []).1.requires_auth = true ∧
     (App.run_turn "user_123" "sess-1"
        [mkAuthTextEventApp "call-7" "https://idp.example/authorize" "xyz42"
          "Partial answer"] []).2.response_parts = ["Partial answer"]) := by
  have h := c7_app_text_and_auth "user_123" "sess-1" "call-7"
    "https://idp.example/authorize" "xyz42" "Partial answer" []
    (by decide) (by decide)
  exact ⟨⟨by decide, by decide⟩, h.2.1, h.2.2.1⟩

/-- Helper: a raise after any prefix of delivered events reaches the
boundary classifier, whatever follows in the stream. -/
theorem run_turn_exc_error (uid sid : String) (pre : List JVal) (e : PyExn)
    (suffix : List (Except PyExn JVal)) (acc : App.TurnAcc) :
    (App.run_turn_exc uid sid
        (pre.map Except.ok ++ Except.error e :: suffix) acc).1
      = App.classify_exception e := by
  induction pre generalizing acc with
  | nil => rfl
  | cons ev rest ih => exact ih (App.process_event uid sid acc ev)

/-- Claim C8, counterexample: the deployed variant's boundary (cited by the
claim) re-raises an `AttributeError` whose message mentions neither
`async_create_session` nor `async_stream_query`: the failure escapes
`query_agent` as an unhandled exception instead of being converted into a
returned result. -/
theorem c8_deployed_reraises :
    Deployed.query_boundary (.error probeExn) = .error probeExn ∧
    Deployed.isUnhandled (Deployed.query_boundary (.error probeExn)) = true :=
  ⟨rfl, rfl⟩

/-- Claim C8, amended: in `app.py` every failure raised while driving a
turn — after any prefix of delivered events, whatever remains in the
stream — is caught at the `query_agent` boundary and converted into a
returned result: an error message textually containing `auth` (or `oauth`)
yields the inferred auth-required outcome with no authorization URL,
anything else a generic error result.  The `app_deployed.py` boundary does
not satisfy this (it re-raises certain AttributeErrors and applies no
textual auth heuristic). -/
theorem c8_app_boundary (uid sid : String) (pre : List JVal) (e : PyExn)
    (suffix : List (Except PyExn JVal)) (store : App.CredStore) :
    (App.run_turn_exc uid sid
        (pre.map Except.ok ++ Except.error e :: suffix)
        (App.initAcc store)).1
      = App.classify_exception e ∧
    (App.classify_exception e).rtype
      = (if App.auth_text e then "oauth" else "error") ∧
    (App.classify_exception e).requires_auth = App.auth_text e ∧
    (App.classify_exception e).auth_url = none := by
  refine ⟨run_turn_exc_error uid sid pre e suffix (App.initAcc store), ?_, ?_, ?_⟩
  all_goals
    unfold App.classify_exception
    by_cases h : App.auth_text e <;> simp [h]

/-- Claim C9: a turn whose stream contains zero auth requests completes as a
text result whose content is the defined non-empty no-response sentinel when
no text fragments were extracted, and otherwise the ordered concatenation of
the extracted fragments in arrival order joined by the newline separator;
the content is never the empty string. -/
theorem c9_sentinel_and_join (uid sid : String) (events : List JVal)
    (store : App.CredStore)
    (hna : ∀ ev ∈ events, App.first_auth_entry ev = none) :
    (App.run_turn uid sid events store).1.rtype = "text" ∧
    (App.run_turn uid sid events store).1.content
      = (if events.filterMap App.extract_truthy = []
         then "No response from agent."
         else pyJoin "\n" (events.filterMap App.extract_truthy)) ∧
    (App.run_turn uid sid events store).1.content ≠ "" := by
  have hparts :
      (events.foldl (App.process_event uid sid)
        (App.initAcc store)).response_parts
        = events.filterMap App.extract_truthy := by
    rw [foldl_process_parts]
    simp [App.initAcc]
  have hoauth :
      (events.foldl (App.process_event uid sid)
        (App.initAcc store)).oauth_detected = false := by
    rw [foldl_process_oauth]
    simp only [App.initAcc, Bool.false_or]
    rw [List.any_eq_false]
    intro ev hev
    rw [app_auth_uri_none ev (hna ev hev)]
    simp
  unfold App.run_turn App.finish
  simp only [hparts, hoauth, Bool.false_eq_true, if_false]
  cases h : events.filterMap App.extract_truthy with
  | nil =>
      refine ⟨trivial, ?_, ?_⟩
      · simp [pyJoin]
      · simp [pyJoin]
  | cons a rest =>
      have ha : a ≠ "" := by
        have hmem : a ∈ events.filterMap App.extract_truthy := by
          rw [h]; exact List.mem_cons_self a rest
        obtain ⟨ev, _, hev⟩ := List.mem_filterMap.mp hmem
        exact extract_truthy_ne ev a hev
      have hj : pyJoin "\n" (a :: rest) ≠ "" := pyJoin_ne "\n" a rest ha
      refine ⟨trivial, ?_, ?_⟩
      · simp [hj]
      · simp [hj]

/-- Witness for C9 at a concrete stream with one text event and one
contentless event. -/
theorem c9_sentinel_and_join_witness :
    (([mkTextEventApp "hello", JVal.null] : List JVal).all
        (fun ev => (App.first_auth_entry ev).isNone)) = true ∧
    (App.run_turn "user_123" "sess-1" [mkTextEventApp "hello", JVal.null]
        []).1.content = "hello" ∧
    (App.run_turn "user_123" "sess-1" [mkTextEventApp "hello", JVal.null]
        []).1.content ≠ "" := by
  have hna : ∀ ev ∈ ([mkTextEventApp "hello", JVal.null] : List JVal),
      App.first_auth_entry ev = none := by
    intro ev hev
    rcases List.mem_cons.mp hev with rfl | hev2
    · rfl
    rcases List.mem_cons.mp hev2 with rfl | hev3
    · rfl
    · exact absurd hev3 (List.not_mem_nil ev)
  have h := c9_sentinel_and_join "user_123" "sess-1"
    [mkTextEventApp "hello", JVal.null] [] hna
  refine ⟨rfl, ?_, h.2.2⟩
  rw [h.2.1]
  rfl

/-- Claim C10, counterexample: on a successful correlation the callback
handler does not leave all session fields other than the identity ones
unchanged: `oauth_ready` flips from false to true and
`pending_auth_config` is populated. -/
theorem c10_oauth_ready_changed :
    ss0.oauth_ready = false ∧
    ss0.pending_auth_config = none ∧
    (App.handle_oauth_callback "abc" "xyz42" store0 ss0).1.oauth_ready
      = true ∧
    ((App.handle_oauth_callback "abc" "xyz42" store0
        ss0).1.pending_auth_config).isSome = true :=
  ⟨rfl, rfl, rfl, rfl⟩

/-- Claim C10, amended: on every successful correlation the callback handler
overwrites the session's user identifier and agent-session identifier with
the stored values (whoever presents a valid state token adopts the stored
session identity), sets `pending_auth_config` to the mutated record and
`oauth_ready` to true, and leaves the chat message history and the remaining
session fields (`original_query`) unchanged. -/
theorem c10_frame (code state : String) (store : App.CredStore)
    (ss : App.SessionState) (d : App.StoredData) (store2 : App.CredStore)
    (h : App.load_auth_config store state = (some d, store2)) :
    (App.handle_oauth_callback code state store ss).1.user_id = d.user_id ∧
    (App.handle_oauth_callback code state store ss).1.agent_session_id
      = some d.agent_session_id ∧
    (App.handle_oauth_callback code state store ss).1.messages
      = ss.messages ∧
    (App.handle_oauth_callback code state store ss).1.original_query
      = ss.original_query ∧
    (App.handle_oauth_callback code state store ss).1.oauth_ready = true ∧
    (App.handle_oauth_callback code state store ss).1.pending_auth_config
      = some ⟨d.function_call_id,
              App.mutate_auth_config d.auth_config
                (App.callback_url code state),
              d.invocation_id⟩ ∧
    (App.handle_oauth_callback code state store ss).2.1 = store2 := by
  unfold App.handle_oauth_callback
  rw [h]
  exact ⟨rfl, rfl, rfl, rfl, rfl, rfl, rfl⟩

/-- Witness for C10's amended theorem at a concrete store and session. -/
theorem c10_frame_witness :
    App.load_auth_config store0 "xyz42" = (some d0, []) ∧
    ((App.handle_oauth_callback "abc" "xyz42" store0 ss0).1.user_id
        = "user-9" ∧
     (App.handle_oauth_callback "abc" "xyz42" store0 ss0).1.messages
        = ([] : List JVal)) := by
  have h := c10_frame "abc" "xyz42" store0 ss0 d0 [] rfl
  exact ⟨rfl, h.1, h.2.2.1⟩
